import Mathlib

/-!
Verification of the quota-and-session coordination layer of the
Chat2Site backend (rate limiter, Redis-backed counter/session store,
chat session coordinator).

The Lean definitions below are a shallow embedding of the TypeScript
source:
 * `src/src/middleware/rateLimiter.ts` (`rateLimitMiddleware`,
   `getRemainingRequests`),
 * the `RedisService` class (`setLastResponseId`, `getLastResponseId`,
   `getRateLimitCount`, `setRateLimitCount`, `decrementRateLimitCount`),
 * `ChatService.processChat` (the zod-validated variant that delegates
   to `AIService.processMessage`),
 * `AIService.processMessage` error classification,
 * the zod schemas `ChatRequestSchema` / `ChatResponseSchema`
   (`src/src/types/chat.types.ts`) and the chat controller pipeline
   (`src/src/app.ts` middleware ordering plus
   `src/src/controllers/chat.controller.ts`).

The Redis store is modelled as two string-keyed finite maps (the two
key namespaces `rate_limit:<ip>` and `token:<t>:lastResponseId` are
disjoint, so splitting the keyspace is faithful); each entry carries
its value together with the TTL (in seconds) installed by the write
that created it.  Wall-clock concerns (actual key expiry, measured
processing time) are outside the embedding: expiry is represented by
the recorded TTL value, and an expired key is simply an absent entry.
-/

namespace Chat2Site

/-- Redis key for the per-IP quota counter (`rate_limit:${ip}` in
`RedisService`). -/
def rateKey (ip : String) : String := "rate_limit:" ++ ip

/-- Redis key for the session continuation handle
(`token:${token}:lastResponseId` in `RedisService`). -/
def sessionKey (token : String) : String := "token:" ++ token ++ ":lastResponseId"

/-- The shared counter store: quota counters (integer value, TTL
seconds) and session continuation handles (string value, TTL
seconds), both addressed by their full Redis key. -/
structure Store where
  rate : String → Option (Int × Nat)
  session : String → Option (String × Nat)

/-- The store with no keys. -/
def emptyStore : Store := { rate := fun _ => none, session := fun _ => none }

namespace RedisService

/-- `RedisService.getRateLimitCount`: read the quota counter for `ip`;
`null` when the key is absent.  (The source stores the counter as a
decimal string and re-parses it with `parseInt`; every write is an
integer, so the value is modelled as `Int` directly.) -/
def getRateLimitCount (st : Store) (ip : String) : Option Int :=
  (st.rate (rateKey ip)).map (·.1)

/-- `RedisService.setRateLimitCount`: `setEx(key, 86400, count)` — write
the counter with a 24-hour TTL. -/
def setRateLimitCount (st : Store) (ip : String) (count : Int) : Store :=
  { st with rate := fun k => if k = rateKey ip then some (count, 86400) else st.rate k }

/-- `RedisService.decrementRateLimitCount`: Redis `DECR` — an absent key
is treated as 0 and created without an expiry (TTL recorded as 0); a
present key keeps its TTL.  Returns the new value and the new store. -/
def decrementRateLimitCount (st : Store) (ip : String) : Int × Store :=
  match st.rate (rateKey ip) with
  | some (v, t) =>
      (v - 1, { st with rate := fun k => if k = rateKey ip then some (v - 1, t) else st.rate k })
  | none =>
      (-1, { st with rate := fun k => if k = rateKey ip then some (-1, 0) else st.rate k })

/-- `RedisService.setLastResponseId`: `setEx(key, 3600, responseId)` —
write the continuation handle with a fresh 1-hour TTL, overwriting any
prior entry. -/
def setLastResponseId (st : Store) (token responseId : String) : Store :=
  { st with session := fun k => if k = sessionKey token then some (responseId, 3600) else st.session k }

/-- `RedisService.getLastResponseId`: read the continuation handle for
`token`; `null` when absent. -/
def getLastResponseId (st : Store) (token : String) : Option String :=
  (st.session (sessionKey token)).map (·.1)

end RedisService

/-- The error taxonomy produced by the core (`@hapi/boom` constructors
used by the source). -/
inductive AppError where
  | badRequest (msg : String)
  | unauthorized (msg : String)
  | tooManyRequests (msg : String)
  | badGateway (msg : String)
deriving DecidableEq, Repr

/-- Decidable equality for `Except`, enabling `decide`-style
evaluation of concrete pipeline outcomes. -/
instance exceptDecEq {ε α : Type} [DecidableEq ε] [DecidableEq α] : DecidableEq (Except ε α)
  | .error e1, .error e2 =>
      if h : e1 = e2 then isTrue (by rw [h]) else isFalse (by intro he; cases he; exact h rfl)
  | .error _, .ok _ => isFalse (by intro h; cases h)
  | .ok _, .error _ => isFalse (by intro h; cases h)
  | .ok a1, .ok a2 =>
      if h : a1 = a2 then isTrue (by rw [h]) else isFalse (by intro he; cases he; exact h rfl)

/-- HTTP status Boom assigns to each error kind. -/
def AppError.status : AppError → Nat
  | .badRequest _ => 400
  | .unauthorized _ => 401
  | .tooManyRequests _ => 429
  | .badGateway _ => 502

/-- The 429 message built by `rateLimitMiddleware`. -/
def dailyLimitMessage (limit : Int) : String :=
  "You have exceeded the daily limit of " ++ toString limit ++
    " requests. Please try again tomorrow."

/-- `rateLimitMiddleware` (src/src/middleware/rateLimiter.ts): skip for
`/health` and `/`; otherwise read the counter; absent → initialise to
`limit - 1` (24h TTL) and admit; `≤ 0` → throw `Boom.tooManyRequests`
without touching the store; `> 0` → `DECR` and admit.  The result is
`(none, st')` on admission and `(some err, st')` on rejection, `st'`
being the store after the middleware's writes. -/
def rateLimitMiddleware (limit : Int) (path ip : String) (st : Store) :
    Option AppError × Store :=
  if path = "/health" ∨ path = "/" then (none, st)
  else
    match RedisService.getRateLimitCount st ip with
    | none => (none, RedisService.setRateLimitCount st ip (limit - 1))
    | some c =>
        if c ≤ 0 then
          (some (.tooManyRequests (dailyLimitMessage limit)), st)
        else
          (none, (RedisService.decrementRateLimitCount st ip).2)

/-- `getRemainingRequests` (src/src/middleware/rateLimiter.ts): the raw
counter value when present, else the configured daily limit. -/
def getRemainingRequests (limit : Int) (st : Store) (ip : String) : Int :=
  match RedisService.getRateLimitCount st ip with
  | some n => n
  | none => limit

/-- JavaScript string truthiness fallback `a || b` where `a` may be
absent (`undefined`/`null`) or empty (both falsy). -/
def jsOr (a : Option String) (b : String) : String :=
  match a with
  | some s => if s = "" then b else s
  | none => b

/-- `lastResponseId || undefined`: an empty or absent string becomes
`undefined`. -/
def jsToOpt (a : Option String) : Option String :=
  match a with
  | some s => if s = "" then none else some s
  | none => none

/-- `validatedRequest.ip || 'unknown'` in `ChatService.processChat`. -/
def jsIp (ip : String) : String := if ip = "" then "unknown" else ip

/-- JS truthiness of the optional `token` field: `!token` is true for
`undefined`, `null` and `""`. -/
def tokenAbsent : Option String → Bool
  | none => true
  | some s => s = ""

/-- The token used for the turn (`ChatService.processChat`): a fresh
system-generated identifier when the caller presented no (or an empty)
token, otherwise the caller's token. -/
def turnToken (fresh : String) (t : Option String) : String :=
  if tokenAbsent t then fresh else t.getD ""

/-- The continuation handle passed to the agent for this turn: `none`
for an absent caller token, otherwise the store lookup for the
caller's token with JS falsy coercion (`lastResponseId || undefined`). -/
def priorHandle (t : Option String) (st : Store) : Option String :=
  if tokenAbsent t then none
  else jsToOpt (RedisService.getLastResponseId st (t.getD ""))

/-- The raw JSON payload returned by the upstream agent on HTTP
success: the fields `AIService.processMessage` reads from
`response.data` (each may be missing), plus usage metadata.  The
numeric metadata is modelled as `Nat` — both ends of the boundary gate
it with zod `min(0)` checks. -/
structure AgentRaw where
  response : Option String
  message : Option String
  conversationId : Option String
  model : Option String
  tokens : Option Nat
deriving DecidableEq, Repr

/-- Outcome of the HTTP call to the upstream agent: success with a raw
payload, an HTTP error response with a status code and status text, or
a network failure with an error message. -/
inductive AgentOutcome where
  | ok (raw : AgentRaw)
  | httpError (status : Nat) (statusText : String)
  | networkFailure (message : String)
deriving DecidableEq, Repr

/-- An agent: a function from the optional prior continuation handle
to an outcome.  (The message and timestamp sent to the agent do not
influence any claim, so the oracle is indexed by the handle alone.) -/
def Agent : Type := Option String → AgentOutcome

/-- `AIService.processMessage` catch-block classification: 429 →
`tooManyRequests`, status ≥ 500 → `badGateway`, 401 → `unauthorized`,
anything else (including network failures, which carry no response
status) → `badRequest`.  The `ok` arm is never consulted by
`processMessage`. -/
def classifyFailure : AgentOutcome → AppError
  | .httpError status statusText =>
      if status = 429 then .tooManyRequests "AI service rate limit exceeded"
      else if 500 ≤ status then .badGateway "AI service is temporarily unavailable"
      else if status = 401 then .unauthorized "Invalid AI service credentials"
      else .badRequest ("AI service error: " ++ statusText)
  | .networkFailure m => .badRequest ("AI service error: " ++ m)
  | .ok _ => .badRequest "AI service error: "

/-- Whether the agent call failed. -/
def AgentOutcome.failed : AgentOutcome → Bool
  | .ok _ => false
  | _ => true

/-- The validated result of `AIService.processMessage`
(`AIResponseSchema`): non-empty response text, non-empty conversation
id, optional usage metadata.  The measured wall-clock `processingTime`
is not logic-bearing and is recorded as 0. -/
structure AIResponse where
  response : String
  conversationId : String
  model : Option String
  tokens : Option Nat
  processingTime : Nat
deriving DecidableEq, Repr

/-- `AIService.processMessage` (src/src/services/ai.service.ts):
validate the request (`AIRequestSchema`: message min 1), call the
agent, apply the `response || message || 'No response from AI
service'` fallback, validate the result (`AIResponseSchema`:
`response` min 1, `conversationId` min 1 — a validation failure raised
inside the `try` block falls into the catch and surfaces as
`badRequest`), and classify HTTP/network failures. -/
def AIService.processMessage (agent : Agent) (message : String)
    (lastResponseId : Option String) : Except AppError AIResponse :=
  if message = "" then
    .error (.badRequest "Validation failed: Message is required and cannot be empty")
  else
    match agent lastResponseId with
    | .ok raw =>
        let resp := jsOr raw.response (jsOr raw.message "No response from AI service")
        match raw.conversationId with
        | some cid =>
            if cid = "" then .error (.badRequest "AI service error: response validation failed")
            else if resp = "" then .error (.badRequest "AI service error: response validation failed")
            else .ok { response := resp, conversationId := cid,
                       model := raw.model, tokens := raw.tokens, processingTime := 0 }
        | none => .error (.badRequest "AI service error: response validation failed")
    | o => .error (classifyFailure o)

/-- `ChatRequest` (`ChatRequestSchema`): the chat request after the
controller merges the body with the server-derived fields.  The
`z.string().ip()` format refinement on `ip` and the string-typing of
`requestId` are orthogonal to every claim and are not modelled; the
load-bearing refinement is `msg` min 1. -/
structure ChatRequest where
  msg : String
  token : Option String
  ip : String
  requestId : String
deriving DecidableEq, Repr

/-- `ChatAIMetadataSchema`: optional usage metadata attached to the
response. -/
structure ChatAIMetadata where
  model : Option String
  tokens : Option Nat
  processingTime : Option Nat
  conversationId : Option String
deriving DecidableEq, Repr

/-- `ChatResponse` (`ChatResponseSchema`). -/
structure ChatResponse where
  message : String
  token : String
  responseId : String
  isNewToken : Bool
  remainingRequests : Int
  aiMetadata : Option ChatAIMetadata
deriving DecidableEq, Repr

/-- `ChatResponseSchema.parse`: `message` min 1, `token` min 1,
`responseId` min 1, `remainingRequests` min 0.  Zod reports all failed
checks at once; the embedding returns the first failing check's
message — every claim depends only on which requests fail, not on the
concatenated message text.  A failure propagates as a `ZodError` that
the controller turns into `Boom.badRequest`. -/
def validateChatResponse (r : ChatResponse) : Except AppError ChatResponse :=
  if r.message = "" then .error (.badRequest "Validation failed: Message cannot be empty")
  else if r.token = "" then .error (.badRequest "Validation failed: Token is required")
  else if r.responseId = "" then .error (.badRequest "Validation failed: Response ID is required")
  else if r.remainingRequests < 0 then
    .error (.badRequest "Validation failed: Remaining requests cannot be negative")
  else .ok r

/-- `ChatService.processChat` (the zod-validated variant): validate
the request, resolve the turn token and prior continuation handle,
call the agent through `AIService.processMessage`, persist the new
continuation handle under the turn token (1-hour TTL), read the
remaining quota for the caller's IP, assemble the response and
validate it with `ChatResponseSchema`.  Returns the outcome together
with the store as left by the turn (unchanged on any failure that
precedes the handle write). -/
def ChatService.processChat (limit : Int) (fresh : String) (agent : Agent)
    (req : ChatRequest) (st : Store) : Except AppError ChatResponse × Store :=
  if req.msg = "" then
    (.error (.badRequest "Validation failed: Message is required and cannot be empty"), st)
  else
    let token := turnToken fresh req.token
    let isNewToken := tokenAbsent req.token
    match AIService.processMessage agent req.msg (priorHandle req.token st) with
    | .error e => (.error e, st)
    | .ok ai =>
        let st1 := RedisService.setLastResponseId st token ai.conversationId
        let remaining := getRemainingRequests limit st1 (jsIp req.ip)
        let resp : ChatResponse :=
          { message := ai.response, token := token, responseId := ai.conversationId,
            isNewToken := isNewToken, remainingRequests := remaining,
            aiMetadata := some { model := ai.model, tokens := ai.tokens,
                                 processingTime := some ai.processingTime,
                                 conversationId := some ai.conversationId } }
        match validateChatResponse resp with
        | .error e => (.error e, st1)
        | .ok r => (.ok r, st1)

/-- The request body of `POST /api/chat`. -/
structure ChatBody where
  msg : String
  token : Option String
deriving DecidableEq, Repr

/-- The full request pipeline for `POST /api/chat` (src/src/app.ts):
`rateLimitMiddleware` runs first (it is installed with `app.use`
before the routes, exempting only `/health` and `/`), then the
controller validates the merged request with `ChatRequestSchema`
(a `ZodError` becomes `Boom.badRequest`) and delegates to
`ChatService.processChat`. -/
def handleChat (limit : Int) (fresh : String) (agent : Agent)
    (path ip : String) (body : ChatBody) (requestId : String) (st : Store) :
    Except AppError ChatResponse × Store :=
  match rateLimitMiddleware limit path ip st with
  | (some e, st1) => (.error e, st1)
  | (none, st1) =>
      let req : ChatRequest := { msg := body.msg, token := body.token, ip := ip, requestId := requestId }
      if req.msg = "" then
        (.error (.badRequest "Validation failed: Message is required and cannot be empty"), st1)
      else ChatService.processChat limit fresh agent req st1

/-! ## Theorems -/

/-- C1: for every IP whose stored quota counter is present with a
value ≤ 0, the rate limiter rejects the request with the "too many
requests" error naming the configured daily limit, and performs no
write: the resulting store is exactly the input store. -/
theorem c1_exhausted_counter_rejected_without_write
    (limit : Int) (path ip : String) (st : Store) (v : Int) (ttl : Nat)
    (hpath : ¬(path = "/health" ∨ path = "/"))
    (hv : st.rate (rateKey ip) = some (v, ttl)) (hle : v ≤ 0) :
    rateLimitMiddleware limit path ip st
      = (some (.tooManyRequests (dailyLimitMessage limit)), st) ∧
    ∃ pre post, dailyLimitMessage limit = pre ++ toString limit ++ post := by
  constructor
  · unfold rateLimitMiddleware RedisService.getRateLimitCount
    rw [if_neg hpath, hv]
    simp [hle]
  · exact ⟨"You have exceeded the daily limit of ",
      " requests. Please try again tomorrow.", rfl⟩

/-- Concrete store for the C1 witness: IP `1.2.3.4` has an exhausted
counter. -/
def storeC1 : Store :=
  { emptyStore with rate := fun k => if k = rateKey "1.2.3.4" then some (0, 100) else none }

/-- Witness for C1 at limit 20, path `/api/chat`, IP `1.2.3.4`,
counter 0. -/
theorem c1_witness :
    (¬("/api/chat" = "/health" ∨ "/api/chat" = "/")) ∧
    storeC1.rate (rateKey "1.2.3.4") = some (0, 100) ∧ ((0 : Int) ≤ 0) ∧
    (rateLimitMiddleware 20 "/api/chat" "1.2.3.4" storeC1
        = (some (.tooManyRequests (dailyLimitMessage 20)), storeC1) ∧
      ∃ pre post, dailyLimitMessage 20 = pre ++ toString (20 : Int) ++ post) :=
  ⟨by decide, by decide, by decide,
    c1_exhausted_counter_rejected_without_write 20 "/api/chat" "1.2.3.4" storeC1 0 100
      (by decide) (by decide) (by decide)⟩

/-- C2: for every IP with no stored quota counter, the rate limiter
admits the request, creates the counter with value `limit − 1` and the
24-hour (86400 s) expiry, and an immediately-following remaining query
returns `limit − 1`. -/
theorem c2_first_request_initialises (limit : Int) (path ip : String) (st : Store)
    (hpath : ¬(path = "/health" ∨ path = "/"))
    (habs : st.rate (rateKey ip) = none) :
    (rateLimitMiddleware limit path ip st).1 = none ∧
    (rateLimitMiddleware limit path ip st).2.rate (rateKey ip) = some (limit - 1, 86400) ∧
    getRemainingRequests limit (rateLimitMiddleware limit path ip st).2 ip = limit - 1 := by
  unfold rateLimitMiddleware RedisService.getRateLimitCount
  rw [if_neg hpath, habs]
  simp [RedisService.setRateLimitCount, getRemainingRequests, RedisService.getRateLimitCount]

/-- Witness for C2 at limit 20, path `/api/chat`, never-seen IP on the
empty store. -/
theorem c2_witness :
    (¬("/api/chat" = "/health" ∨ "/api/chat" = "/")) ∧
    emptyStore.rate (rateKey "5.6.7.8") = none ∧
    ((rateLimitMiddleware 20 "/api/chat" "5.6.7.8" emptyStore).1 = none ∧
      (rateLimitMiddleware 20 "/api/chat" "5.6.7.8" emptyStore).2.rate (rateKey "5.6.7.8")
        = some (19, 86400) ∧
      getRemainingRequests 20 (rateLimitMiddleware 20 "/api/chat" "5.6.7.8" emptyStore).2 "5.6.7.8"
        = 19) :=
  ⟨by decide, by decide,
    c2_first_request_initialises 20 "/api/chat" "5.6.7.8" emptyStore (by decide) (by decide)⟩

/-- Store after the 1st request of the C3 scenario (limit 3, IP
`9.9.9.9`, starting from the empty store). -/
def c3s1 : Store := (rateLimitMiddleware 3 "/api/chat" "9.9.9.9" emptyStore).2

/-- Store after the 2nd request of the C3 scenario. -/
def c3s2 : Store := (rateLimitMiddleware 3 "/api/chat" "9.9.9.9" c3s1).2

/-- Store after the 3rd request of the C3 scenario. -/
def c3s3 : Store := (rateLimitMiddleware 3 "/api/chat" "9.9.9.9" c3s2).2

/-- C3: with daily limit 3 and sequential requests, a previously
unseen IP has its first three requests admitted, the remaining query
after the third returns 0, and the fourth request is rejected with a
message containing "daily limit of 3". -/
theorem c3_limit_three_scenario :
    (rateLimitMiddleware 3 "/api/chat" "9.9.9.9" emptyStore).1 = none ∧
    (rateLimitMiddleware 3 "/api/chat" "9.9.9.9" c3s1).1 = none ∧
    (rateLimitMiddleware 3 "/api/chat" "9.9.9.9" c3s2).1 = none ∧
    getRemainingRequests 3 c3s3 "9.9.9.9" = 0 ∧
    ∃ pre post, (rateLimitMiddleware 3 "/api/chat" "9.9.9.9" c3s3).1
      = some (.tooManyRequests (pre ++ "daily limit of 3" ++ post)) := by
  refine ⟨by decide, by decide, by decide, by decide,
    "You have exceeded the ", " requests. Please try again tomorrow.", by decide⟩

/-- Admission with a positive counter decrements it in place (helper
for the pipeline theorems). -/
theorem rateLimitMiddleware_admit_decrement (limit : Int) (path ip : String) (st : Store)
    (v : Int) (ttl : Nat) (hpath : ¬(path = "/health" ∨ path = "/"))
    (hv : st.rate (rateKey ip) = some (v, ttl)) (hpos : 0 < v) :
    rateLimitMiddleware limit path ip st
      = (none, { st with rate := fun k => if k = rateKey ip then some (v - 1, ttl) else st.rate k }) := by
  unfold rateLimitMiddleware RedisService.getRateLimitCount RedisService.decrementRateLimitCount
  rw [if_neg hpath, hv]
  simp [show ¬ v ≤ 0 by omega]

/-- Quota store for the C4 counterexample: IP `1.2.3.4` has 5 requests
left. -/
def storeC4 : Store :=
  { emptyStore with rate := fun k => if k = rateKey "1.2.3.4" then some (5, 86400) else none }

/-- An agent that answers successfully. -/
def agentStubA : Agent := fun _ =>
  .ok { response := some "agent says hi", message := none, conversationId := some "conv-1",
        model := none, tokens := none }

/-- An agent whose call fails with an HTTP 500. -/
def agentStubB : Agent := fun _ => .httpError 500 "Internal Server Error"

/-- C4 counterexample: a `{msg: ""}` request does yield a 400
validation error, but the quota counter IS mutated — the rate limiter
runs before body validation and decrements the counter from 5 to 4 —
refuting "performs no mutation of the shared counter store". -/
theorem c4_counterexample :
    storeC4.rate (rateKey "1.2.3.4") = some (5, 86400) ∧
    (handleChat 20 "fresh-1" agentStubA "/api/chat" "1.2.3.4"
        { msg := "", token := none } "r1" storeC4).1
      = .error (.badRequest "Validation failed: Message is required and cannot be empty") ∧
    (handleChat 20 "fresh-1" agentStubA "/api/chat" "1.2.3.4"
        { msg := "", token := none } "r1" storeC4).2.rate (rateKey "1.2.3.4")
      = some (4, 86400) := by
  refine ⟨by decide, by decide, by decide⟩

/-- C4 amended: an empty-message chat request is answered with a 400
validation error, no session mapping is written and the agent is never
consulted (the outcome is independent of the agent), but the quota
counter for the IP is decremented by the rate limiter, which runs
before validation. -/
theorem c4_amended_empty_message (limit : Int) (fresh : String) (a1 a2 : Agent)
    (ip requestId : String) (tok : Option String) (st : Store) (v : Int) (ttl : Nat)
    (hv : st.rate (rateKey ip) = some (v, ttl)) (hpos : 0 < v) :
    (handleChat limit fresh a1 "/api/chat" ip { msg := "", token := tok } requestId st).1
      = .error (.badRequest "Validation failed: Message is required and cannot be empty") ∧
    (handleChat limit fresh a1 "/api/chat" ip { msg := "", token := tok } requestId st).2.session
      = st.session ∧
    (handleChat limit fresh a1 "/api/chat" ip { msg := "", token := tok } requestId st).2.rate
        (rateKey ip) = some (v - 1, ttl) ∧
    handleChat limit fresh a1 "/api/chat" ip { msg := "", token := tok } requestId st
      = handleChat limit fresh a2 "/api/chat" ip { msg := "", token := tok } requestId st := by
  have hmw := rateLimitMiddleware_admit_decrement limit "/api/chat" ip st v ttl (by decide) hv hpos
  refine ⟨?_, ?_, ?_, ?_⟩ <;> simp [handleChat, hmw]

/-- Witness for the C4 amended theorem at limit 20, IP `1.2.3.4`,
counter 5, two different agents. -/
theorem c4_witness :
    storeC4.rate (rateKey "1.2.3.4") = some (5, 86400) ∧ ((0 : Int) < 5) ∧
    ((handleChat 20 "fresh-1" agentStubA "/api/chat" "1.2.3.4"
        { msg := "", token := none } "r1" storeC4).1
      = .error (.badRequest "Validation failed: Message is required and cannot be empty") ∧
    (handleChat 20 "fresh-1" agentStubA "/api/chat" "1.2.3.4"
        { msg := "", token := none } "r1" storeC4).2.session = storeC4.session ∧
    (handleChat 20 "fresh-1" agentStubA "/api/chat" "1.2.3.4"
        { msg := "", token := none } "r1" storeC4).2.rate (rateKey "1.2.3.4")
      = some (5 - 1, 86400) ∧
    handleChat 20 "fresh-1" agentStubA "/api/chat" "1.2.3.4"
        { msg := "", token := none } "r1" storeC4
      = handleChat 20 "fresh-1" agentStubB "/api/chat" "1.2.3.4"
        { msg := "", token := none } "r1" storeC4) :=
  ⟨by decide, by decide,
    c4_amended_empty_message 20 "fresh-1" agentStubA agentStubB "1.2.3.4" "r1" none storeC4 5 86400
      (by decide) (by decide)⟩

/-- The JS `||` fallback never produces the empty string when its
right operand is non-empty. -/
theorem jsOr_ne_empty (a : Option String) (b : String) (hb : b ≠ "") : jsOr a b ≠ "" := by
  unfold jsOr
  cases a with
  | none => exact hb
  | some s =>
      by_cases hs : s = ""
      · simp [hs, hb]
      · simp [hs]

/-- `ChatResponseSchema.parse` succeeds only by returning its input
unchanged. -/
theorem validateChatResponse_ok {x y : ChatResponse} (h : validateChatResponse x = .ok y) :
    y = x := by
  unfold validateChatResponse at h
  repeat' split at h
  all_goals simp_all

/-- `ChatResponseSchema.parse` succeeds when the four refinements
hold. -/
theorem validateChatResponse_pass (r : ChatResponse) (h1 : r.message ≠ "") (h2 : r.token ≠ "")
    (h3 : r.responseId ≠ "") (h4 : ¬ r.remainingRequests < 0) :
    validateChatResponse r = .ok r := by
  unfold validateChatResponse
  rw [if_neg h1, if_neg h2, if_neg h3, if_neg h4]

/-- `AIService.processMessage` on a successful agent call with a
non-empty conversation id: the validated result, with the `response ||
message || fallback` coercion applied. -/
theorem processMessage_ok (agent : Agent) (msg : String) (lr : Option String)
    (raw : AgentRaw) (cid : String)
    (hmsg : msg ≠ "") (hagent : agent lr = .ok raw)
    (hcid : raw.conversationId = some cid) (hc : cid ≠ "") :
    AIService.processMessage agent msg lr
      = .ok { response := jsOr raw.response (jsOr raw.message "No response from AI service"),
              conversationId := cid, model := raw.model, tokens := raw.tokens,
              processingTime := 0 } := by
  have hresp : jsOr raw.response (jsOr raw.message "No response from AI service") ≠ "" :=
    jsOr_ne_empty _ _ (jsOr_ne_empty _ _ (by decide))
  simp only [AIService.processMessage, if_neg hmsg, hagent, hcid]
  rw [if_neg hc, if_neg hresp]

/-- The response record `ChatService.processChat` assembles once the
agent has answered with conversation id `cid`. -/
def assembledResponse (limit : Int) (fresh : String) (req : ChatRequest) (st : Store)
    (raw : AgentRaw) (cid : String) : ChatResponse :=
  { message := jsOr raw.response (jsOr raw.message "No response from AI service"),
    token := turnToken fresh req.token,
    responseId := cid,
    isNewToken := tokenAbsent req.token,
    remainingRequests := getRemainingRequests limit
      (RedisService.setLastResponseId st (turnToken fresh req.token) cid) (jsIp req.ip),
    aiMetadata := some { model := raw.model, tokens := raw.tokens,
                         processingTime := some 0, conversationId := some cid } }

/-- `ChatService.processChat` after a successful agent call: persist
the handle, then validate and return the assembled response. -/
theorem processChat_agent_ok (limit : Int) (fresh : String) (agent : Agent)
    (req : ChatRequest) (st : Store) (raw : AgentRaw) (cid : String)
    (hmsg : req.msg ≠ "") (hagent : agent (priorHandle req.token st) = .ok raw)
    (hcid : raw.conversationId = some cid) (hc : cid ≠ "") :
    ChatService.processChat limit fresh agent req st
      = (match validateChatResponse (assembledResponse limit fresh req st raw cid) with
         | .error e => (.error e, RedisService.setLastResponseId st (turnToken fresh req.token) cid)
         | .ok r => (.ok r, RedisService.setLastResponseId st (turnToken fresh req.token) cid)) := by
  simp only [ChatService.processChat, if_neg hmsg,
    processMessage_ok agent req.msg _ raw cid hmsg hagent hcid hc]
  rfl

/-- Chat request used in the C5 counterexample: a caller-fabricated
token that the store has never seen. -/
def reqC5 : ChatRequest := { msg := "hi", token := some "t-unseen", ip := "1.2.3.4", requestId := "r1" }

/-- C5 counterexample: the token `t-unseen` was never presented before
(the session store is empty), yet the turn's response has
`isNewToken = false` and echoes the caller's token instead of a
freshly generated one (`fresh-1`), refuting the claim for turns that
present a never-seen caller-chosen token. -/
theorem c5_counterexample :
    emptyStore.session (sessionKey "t-unseen") = none ∧
    (ChatService.processChat 20 "fresh-1" agentStubA reqC5 emptyStore).1
      = .ok { message := "agent says hi", token := "t-unseen", responseId := "conv-1",
              isNewToken := false, remainingRequests := 20,
              aiMetadata := some { model := none, tokens := none,
                                   processingTime := some 0, conversationId := some "conv-1" } } ∧
    "t-unseen" ≠ "fresh-1" := by
  refine ⟨by decide, by decide, by decide⟩

/-- C5 amended: for every turn presenting no token (absent or empty —
JS falsiness), a successful response has `isNewToken = true` and
carries the freshly generated, non-empty token; a turn presenting a
never-seen caller-supplied token instead keeps that token with
`isNewToken = false`. -/
theorem c5_amended_absent_token (limit : Int) (fresh : String) (agent : Agent)
    (req : ChatRequest) (st : Store) (r : ChatResponse)
    (hfresh : fresh ≠ "") (htok : tokenAbsent req.token = true)
    (hr : (ChatService.processChat limit fresh agent req st).1 = .ok r) :
    r.isNewToken = true ∧ r.token = fresh ∧ r.token ≠ "" := by
  unfold ChatService.processChat at hr
  split at hr
  · exact absurd hr (by simp)
  · split at hr
    · exact absurd hr (by simp)
    · dsimp only at hr
      split at hr
      · exact absurd hr (by simp)
      · rename_i r' hval
        simp only [Prod.fst] at hr
        cases hr
        have := validateChatResponse_ok hval
        subst this
        refine ⟨by simp [htok], ?_, ?_⟩
        · simp [turnToken, htok]
        · simp [turnToken, htok, hfresh]

/-- Chat request used in the C5 witness: no caller token. -/
def reqC5w : ChatRequest := { msg := "hi", token := none, ip := "1.2.3.4", requestId := "r1" }

/-- Response produced for `reqC5w` on the empty store with the stub
agent. -/
def respC5 : ChatResponse :=
  { message := "agent says hi", token := "fresh-1", responseId := "conv-1",
    isNewToken := true, remainingRequests := 20,
    aiMetadata := some { model := none, tokens := none,
                         processingTime := some 0, conversationId := some "conv-1" } }

/-- Witness for the C5 amended theorem: a token-less turn on the empty
store yields `isNewToken = true` and the fresh token. -/
theorem c5_witness :
    ("fresh-1" ≠ "") ∧ tokenAbsent reqC5w.token = true ∧
    (ChatService.processChat 20 "fresh-1" agentStubA reqC5w emptyStore).1 = .ok respC5 ∧
    (respC5.isNewToken = true ∧ respC5.token = "fresh-1" ∧ respC5.token ≠ "") :=
  ⟨by decide, by decide, by decide,
    c5_amended_absent_token 20 "fresh-1" agentStubA reqC5w emptyStore respC5
      (by decide) (by decide) (by decide)⟩

/-- C6 counterexample: a caller-supplied token string (`evil`) becomes
a stored session key after one turn from the empty store — it was not
generated by this system's random-identifier generator (whose output
for this turn is `fresh-1`), refuting the claimed invariant. -/
theorem c6_counterexample :
    emptyStore.session (sessionKey "evil") = none ∧
    (ChatService.processChat 20 "fresh-1" agentStubA
        { msg := "hi", token := some "evil", ip := "1.2.3.4", requestId := "r1" }
        emptyStore).2.session (sessionKey "evil") = some ("conv-1", 3600) ∧
    "evil" ≠ "fresh-1" := by
  refine ⟨by decide, by decide, by decide⟩

/-- C6 amended: the only session key a turn can write is the key of
the turn's own token — the freshly generated identifier when the
caller presented no token, otherwise the caller-supplied token (which
therefore does become a stored key); every other key is untouched. -/
theorem c6_amended_write_footprint (limit : Int) (fresh : String) (agent : Agent)
    (req : ChatRequest) (st : Store) (k : String)
    (hk : k ≠ sessionKey (turnToken fresh req.token)) :
    (ChatService.processChat limit fresh agent req st).2.session k = st.session k := by
  unfold ChatService.processChat
  split
  · rfl
  · dsimp only
    split
    · rfl
    · split <;> simp [RedisService.setLastResponseId, hk]

/-- Witness for the C6 amended theorem: a key other than the turn
token's key is unchanged by a concrete turn. -/
theorem c6_witness :
    (sessionKey "other" ≠ sessionKey (turnToken "fresh-1" reqC5.token)) ∧
    (ChatService.processChat 20 "fresh-1" agentStubA reqC5 emptyStore).2.session
        (sessionKey "other")
      = emptyStore.session (sessionKey "other") :=
  ⟨by decide,
    c6_amended_write_footprint 20 "fresh-1" agentStubA reqC5 emptyStore
      (sessionKey "other") (by decide)⟩

/-- C7: a turn presenting a token whose continuation-handle mapping is
absent (expired or never written) does not fail because of the miss:
the agent is invoked with no prior continuation handle
(`priorHandle = none`), and the successful response carries the same
caller-supplied token value. -/
theorem c7_expired_handle_silent_restart (limit : Int) (fresh : String) (agent : Agent)
    (req : ChatRequest) (st : Store) (t : String) (raw : AgentRaw) (cid : String)
    (hmsg : req.msg ≠ "") (htok : req.token = some t) (ht : t ≠ "")
    (hmiss : st.session (sessionKey t) = none)
    (hagent : agent none = .ok raw)
    (hcid : raw.conversationId = some cid) (hc : cid ≠ "")
    (hrem : ¬ getRemainingRequests limit (RedisService.setLastResponseId st t cid)
        (jsIp req.ip) < 0) :
    priorHandle req.token st = none ∧
    ∃ r, (ChatService.processChat limit fresh agent req st).1 = .ok r
      ∧ r.token = t ∧ r.isNewToken = false := by
  have habs : tokenAbsent req.token = false := by simp [htok, tokenAbsent, ht]
  have hturn : turnToken fresh req.token = t := by
    simp [turnToken, tokenAbsent, htok, ht]
  have hprior : priorHandle req.token st = none := by
    simp [priorHandle, habs, htok, RedisService.getLastResponseId, hmiss, jsToOpt]
  have hagent' : agent (priorHandle req.token st) = .ok raw := by rw [hprior]; exact hagent
  have h1 : (assembledResponse limit fresh req st raw cid).message ≠ "" :=
    jsOr_ne_empty _ _ (jsOr_ne_empty _ _ (by decide))
  have h2 : (assembledResponse limit fresh req st raw cid).token ≠ "" := by
    simp only [assembledResponse, hturn]; exact ht
  have h4 : ¬ (assembledResponse limit fresh req st raw cid).remainingRequests < 0 := by
    simp only [assembledResponse, hturn]; exact hrem
  refine ⟨hprior, assembledResponse limit fresh req st raw cid, ?_, ?_, ?_⟩
  · rw [processChat_agent_ok limit fresh agent req st raw cid hmsg hagent' hcid hc,
      validateChatResponse_pass _ h1 h2 hc h4]
  · simp only [assembledResponse, hturn]
  · simp only [assembledResponse, habs]

/-- Chat request used in the C7 witness: a known-format token whose
mapping is absent. -/
def reqC7 : ChatRequest := { msg := "hi", token := some "t-expired", ip := "1.2.3.4", requestId := "r1" }

/-- Witness for C7: a turn with token `t-expired` on the empty store
proceeds and echoes the token. -/
theorem c7_witness :
    (reqC7.msg ≠ "") ∧ reqC7.token = some "t-expired" ∧ ("t-expired" ≠ "") ∧
    emptyStore.session (sessionKey "t-expired") = none ∧
    agentStubA none = .ok { response := some "agent says hi", message := none,
                            conversationId := some "conv-1", model := none, tokens := none } ∧
    (¬ getRemainingRequests 20
        (RedisService.setLastResponseId emptyStore "t-expired" "conv-1") (jsIp reqC7.ip) < 0) ∧
    (priorHandle reqC7.token emptyStore = none ∧
      ∃ r, (ChatService.processChat 20 "fresh-1" agentStubA reqC7 emptyStore).1 = .ok r
        ∧ r.token = "t-expired" ∧ r.isNewToken = false) :=
  ⟨by decide, by decide, by decide, by decide, by decide, by decide,
    c7_expired_handle_silent_restart 20 "fresh-1" agentStubA reqC7 emptyStore "t-expired"
      { response := some "agent says hi", message := none, conversationId := some "conv-1",
        model := none, tokens := none } "conv-1"
      (by decide) (by decide) (by decide) (by decide) (by decide) (by decide) (by decide)
      (by decide)⟩

/-- C8: persisting a continuation handle and immediately reading it
back for the same token returns exactly the value written, and the
write installs the full 1-hour (3600 s) TTL regardless of the
mapping's prior state. -/
theorem c8_roundtrip_fresh_ttl (st : Store) (token value : String) :
    RedisService.getLastResponseId (RedisService.setLastResponseId st token value) token
      = some value ∧
    (RedisService.setLastResponseId st token value).session (sessionKey token)
      = some (value, 3600) := by
  constructor <;> simp [RedisService.getLastResponseId, RedisService.setLastResponseId]

/-- C9: when the agent call fails, `processChat` propagates the
classified error (429/502/401/400) and leaves the store exactly as it
was: no continuation handle is persisted and the token's prior mapping
is untouched. -/
theorem c9_agent_failure_no_persist (limit : Int) (fresh : String) (agent : Agent)
    (req : ChatRequest) (st : Store)
    (hmsg : req.msg ≠ "")
    (hfail : (agent (priorHandle req.token st)).failed = true) :
    (ChatService.processChat limit fresh agent req st).1
      = .error (classifyFailure (agent (priorHandle req.token st))) ∧
    (ChatService.processChat limit fresh agent req st).2 = st ∧
    ((classifyFailure (agent (priorHandle req.token st))).status = 429 ∨
     (classifyFailure (agent (priorHandle req.token st))).status = 502 ∨
     (classifyFailure (agent (priorHandle req.token st))).status = 401 ∨
     (classifyFailure (agent (priorHandle req.token st))).status = 400) := by
  have hpm : AIService.processMessage agent req.msg (priorHandle req.token st)
      = .error (classifyFailure (agent (priorHandle req.token st))) := by
    unfold AIService.processMessage
    rw [if_neg hmsg]
    cases h : agent (priorHandle req.token st) with
    | ok raw => rw [h] at hfail; simp [AgentOutcome.failed] at hfail
    | httpError s txt => rfl
    | networkFailure m => rfl
  refine ⟨?_, ?_, ?_⟩
  · simp only [ChatService.processChat, if_neg hmsg, hpm]
  · simp only [ChatService.processChat, if_neg hmsg, hpm]
  · cases h : agent (priorHandle req.token st) with
    | ok raw => rw [h] at hfail; simp [AgentOutcome.failed] at hfail
    | httpError s txt =>
        simp only [classifyFailure]
        split_ifs <;> simp [AppError.status]
    | networkFailure m => simp [classifyFailure, AppError.status]

/-- Chat request used in the C9 witness. -/
def reqC9 : ChatRequest := { msg := "hi", token := some "tok-9", ip := "1.2.3.4", requestId := "r9" }

/-- Witness for C9: a 500 upstream failure surfaces as the classified
502 error and the store (here: a store holding a prior mapping for the
token) is unchanged. -/
theorem c9_witness :
    (reqC9.msg ≠ "") ∧ (agentStubB (priorHandle reqC9.token storeC4)).failed = true ∧
    ((ChatService.processChat 20 "fresh-1" agentStubB reqC9 storeC4).1
        = .error (classifyFailure (agentStubB (priorHandle reqC9.token storeC4))) ∧
      (ChatService.processChat 20 "fresh-1" agentStubB reqC9 storeC4).2 = storeC4 ∧
      ((classifyFailure (agentStubB (priorHandle reqC9.token storeC4))).status = 429 ∨
       (classifyFailure (agentStubB (priorHandle reqC9.token storeC4))).status = 502 ∨
       (classifyFailure (agentStubB (priorHandle reqC9.token storeC4))).status = 401 ∨
       (classifyFailure (agentStubB (priorHandle reqC9.token storeC4))).status = 400)) :=
  ⟨by decide, by decide,
    c9_agent_failure_no_persist 20 "fresh-1" agentStubB reqC9 storeC4 (by decide) (by decide)⟩

/-- C10: a negative stored quota counter is reported unclamped by the
remaining query, and the response validation (`remainingRequests` min
0) then rejects the assembled response, so the turn fails with an
error instead of returning a result. -/
theorem c10_negative_counter_unclamped_fails (limit : Int) (fresh : String) (agent : Agent)
    (req : ChatRequest) (st : Store) (v : Int) (ttl : Nat) (raw : AgentRaw) (cid : String)
    (hmsg : req.msg ≠ "")
    (hv : st.rate (rateKey (jsIp req.ip)) = some (v, ttl)) (hneg : v < 0)
    (htk : turnToken fresh req.token ≠ "")
    (hagent : agent (priorHandle req.token st) = .ok raw)
    (hcid : raw.conversationId = some cid) (hc : cid ≠ "") :
    getRemainingRequests limit st (jsIp req.ip) = v ∧
    (ChatService.processChat limit fresh agent req st).1
      = .error (.badRequest "Validation failed: Remaining requests cannot be negative") := by
  have hrem1 : getRemainingRequests limit st (jsIp req.ip) = v := by
    simp [getRemainingRequests, RedisService.getRateLimitCount, hv]
  have h1 : (assembledResponse limit fresh req st raw cid).message ≠ "" :=
    jsOr_ne_empty _ _ (jsOr_ne_empty _ _ (by decide))
  have hfailv : validateChatResponse (assembledResponse limit fresh req st raw cid)
      = .error (.badRequest "Validation failed: Remaining requests cannot be negative") := by
    have hrem2 : (assembledResponse limit fresh req st raw cid).remainingRequests = v := by
      simp [assembledResponse, getRemainingRequests, RedisService.getRateLimitCount,
        RedisService.setLastResponseId, hv]
    unfold validateChatResponse
    rw [if_neg h1, if_neg (by simpa [assembledResponse] using htk),
      if_neg (show (assembledResponse limit fresh req st raw cid).responseId ≠ "" from hc),
      if_pos (by rw [hrem2]; exact hneg)]
  refine ⟨hrem1, ?_⟩
  rw [processChat_agent_ok limit fresh agent req st raw cid hmsg hagent hcid hc, hfailv]

/-- Quota store for the C10 witness: IP `1.2.3.4` has a negative
counter. -/
def storeC10 : Store :=
  { emptyStore with rate := fun k => if k = rateKey "1.2.3.4" then some (-1, 86400) else none }

/-- Witness for C10: counter −1 is reported as −1 by the remaining
query and the turn fails response validation. -/
theorem c10_witness :
    (reqC5w.msg ≠ "") ∧
    storeC10.rate (rateKey (jsIp reqC5w.ip)) = some (-1, 86400) ∧ ((-1 : Int) < 0) ∧
    (turnToken "fresh-1" reqC5w.token ≠ "") ∧
    agentStubA (priorHandle reqC5w.token storeC10)
      = .ok { response := some "agent says hi", message := none,
              conversationId := some "conv-1", model := none, tokens := none } ∧
    (getRemainingRequests 20 storeC10 (jsIp reqC5w.ip) = -1 ∧
      (ChatService.processChat 20 "fresh-1" agentStubA reqC5w storeC10).1
        = .error (.badRequest "Validation failed: Remaining requests cannot be negative")) :=
  ⟨by decide, by decide, by decide, by decide, by decide,
    c10_negative_counter_unclamped_fails 20 "fresh-1" agentStubA reqC5w storeC10 (-1) 86400
      { response := some "agent says hi", message := none, conversationId := some "conv-1",
        model := none, tokens := none } "conv-1"
      (by decide) (by decide) (by decide) (by decide) (by decide) (by decide) (by decide)⟩

end Chat2Site
